import Mathlib

/-!
Shallow embedding of the `ai` command-line tool (`src/main.rs`): a CLI that
forwards text to an Azure OpenAI chat-completion endpoint.  The embedding
models the JSON value type used for responses (`serde_json::Value`), the
platform credential store as an association list keyed by
(namespace, identifier), the argument-dispatch logic of `main`, the
input/prompt file-or-literal resolution, the request construction, the
credential provisioning (`get_credential`), the delete-all command
(`delete_credentials`), and the response handler (`print_error_response`
plus the extraction branch of `main`).  Rust panics are modelled by
`Option.none`; a Rust `Err` propagating out of `main` is a distinct
`RunResult.errored` outcome.
-/

set_option autoImplicit false

namespace AiTool

/-- Model of `serde_json::Value` as far as the program inspects it.
Numbers are kept as integers; no claim depends on numeric payloads. -/
inductive Value where
  | null
  | bool (b : Bool)
  | num (n : Int)
  | str (s : String)
  | arr (elems : List Value)
  | obj (fields : List (String × Value))

/-- Field lookup `Value::get(key)` on a JSON value: `None` when the value
is not an object or the key is missing (first matching field wins, as in
`serde_json::Map`). -/
def Value.get : Value → String → Option Value
  | .obj fields, k =>
    match fields.find? (fun p => p.1 == k) with
    | some p => some p.2
    | none => none
  | _, _ => none

/-- The `value[key]` indexing operator of `serde_json`: like `get` but
yielding `Null` instead of `None`. -/
def Value.indexStr (v : Value) (k : String) : Value :=
  match v.get k with
  | some w => w
  | none => .null

/-- Rust `Value::as_array`. -/
def Value.asArray : Value → Option (List Value)
  | .arr elems => some elems
  | _ => none

/-- Rust `Value::as_str`. -/
def Value.asStr : Value → Option String
  | .str s => some s
  | _ => none

/-- UTF-8 byte width of one scalar value, as Rust strings count it. -/
def charUtf8Size (c : Char) : Nat :=
  if c.toNat < 128 then 1
  else if c.toNat < 2048 then 2
  else if c.toNat < 65536 then 3
  else 4

/-- Rust `str::len`: the UTF-8 byte length of a string. -/
def rustLen (s : String) : Nat :=
  s.data.foldl (fun n c => n + charUtf8Size c) 0

/-- Rust `str::trim` on the character list: drop leading and trailing
whitespace characters. -/
def rustTrimList (l : List Char) : List Char :=
  ((l.dropWhile Char.isWhitespace).reverse.dropWhile Char.isWhitespace).reverse

/-- Rust `str::trim`. -/
def rustTrim (s : String) : String :=
  ⟨rustTrimList s.data⟩

/-- Everything the process emits on its standard streams, in order.  A
`promptInput` event records an interactive read together with whether the
terminal echo was masked (`rpassword::read_password` vs `read_line`). -/
inductive OutputEvent where
  | line (s : String)
  | prettyJson (v : Value)
  | promptInput (message : String) (masked : Bool)

/-- The credential store: entries of the OS keyring, keyed by
(service namespace, credential identifier). -/
abbrev Store := List ((String × String) × String)

/-- Lookup `keyring::Entry::get_password`: first matching entry wins. -/
def storeGet (s : Store) (k : String × String) : Option String :=
  match s.find? (fun p => p.1.1 == k.1 && p.1.2 == k.2) with
  | some p => some p.2
  | none => none

/-- Write `keyring::Entry::set_password`: the new entry shadows any older one. -/
def storeSet (s : Store) (k : String × String) (v : String) : Store :=
  (k, v) :: s

/-- Deletion `keyring::Entry::delete_password`, successful case: remove every
entry under the key. -/
def storeDelete (s : Store) (k : String × String) : Store :=
  s.filter (fun p => !(p.1.1 == k.1 && p.1.2 == k.2))

/-- Final observable outcome of one process run: an exit with a status code
and the outputs produced, or a Rust `Err` propagated out of `main`
(which the runtime reports on stderr and turns into a failure status). -/
inductive RunResult where
  | exited (code : Nat) (outputs : List OutputEvent) (store : Store)
  | errored (msg : String) (store : Store)

/-- The generic-diagnostic tail of `print_error_response`: token estimate,
banner, pretty-printed body; the function then returns `Ok(())`, so the
process exits 0. -/
def genericDump (v : Value) (input : String) (store : Store) : RunResult :=
  .exited 0
    [ .line ("Sent approximately " ++ toString (rustLen input / 4) ++ " tokens"),
      .line "\nRaw API Response:\n",
      .prettyJson v ]
    store

/-- Function `print_error_response` from `src/main.rs`: on an `error` object whose
`code` is the string `"401"`, delete the stored API key (the `?` on
`delete_password` propagates a store failure when no key is present),
print the two remediation lines and exit 1; otherwise dump diagnostics
and return success. -/
def print_error_response (v : Value) (input : String) (store : Store) : RunResult :=
  match v.get "error" with
  | some err =>
    if (err.get "code").bind Value.asStr = some "401" then
      match storeGet store ("actionitems", "azure_openai") with
      | some _ =>
        .exited 1
          [ .line "Authentication failed. API key has been cleared.",
            .line "Please run the tool again to enter a new API key." ]
          (storeDelete store ("actionitems", "azure_openai"))
      | none => .errored "delete_password: no entry" store
    else genericDump v input store
  | none => genericDump v input store

/-- The response-handling branch of `main` (lines 124–132): look up
`response_json["choices"]` as an array, index its first element — a
`Vec` index, which panics on an empty array (`none`) — then extract
`["message"]["content"]` as a string; print it on success, otherwise
fall through to `print_error_response`. -/
def handleResponse (v : Value) (input : String) (store : Store) : Option RunResult :=
  match (v.indexStr "choices").asArray with
  | some choices =>
    match choices with
    | [] => none
    | c0 :: _ =>
      match ((c0.indexStr "message").indexStr "content").asStr with
      | some msg => some (.exited 0 [.line msg] store)
      | none => some (print_error_response v input store)
  | none => some (print_error_response v input store)

/-- The reply-extraction condition exactly as the specification phrases it:
a `choices` array with a first element whose `message.content` is a
string, yielding that string. -/
def successContent (v : Value) : Option String :=
  match (v.indexStr "choices").asArray with
  | some (c0 :: _) => ((c0.indexStr "message").indexStr "content").asStr
  | _ => none

/-- Whether the body carries an `error` object whose `code` field is the
literal string `"401"`. -/
def errorCodeIs401 (v : Value) : Bool :=
  match v.get "error" with
  | some err => (err.get "code").bind Value.asStr == some "401"
  | none => false

/-- What the argument check of `main` dispatches to.  `send` carries the
still-unresolved prompt argument (when `--prompt` was given) and input
argument. -/
inductive CliAction where
  | help
  | deleteKeys
  | usageError
  | send (promptArg : Option String) (inputArg : String)
  deriving DecidableEq

/-- The argument dispatch of `main` (lines 40–81): `--help`/`-h` and
`--delete-keys` are recognised only as a single argument; an argument
count other than 2 or 4 (program name included) prints usage and exits 1;
a 4-argument invocation is the `--prompt` form when the first argument is
that flag, and otherwise falls into the default-prompt branch using the
first argument as input (ignoring the remaining two). -/
def mainDispatch : List String → CliAction
  | [_, a] =>
    if a = "--help" ∨ a = "-h" then .help
    else if a = "--delete-keys" then .deleteKeys
    else .send none a
  | [_, a, b, c] =>
    if a = "--prompt" then .send (some b) c else .send none a
  | _ => .usageError

/-- Only the send path of `main` reaches `client.post`; the help, delete
and usage paths return or `exit` before any HTTP client is created. -/
def performsNetworkCall : CliAction → Bool
  | .send _ _ => true
  | _ => false

/-- Resolution `fs::read_to_string(arg).unwrap_or_else(|_| arg.to_string())`, with the
file system modelled as a partial map from paths to contents (`none` for
any read failure).  The second component records the output produced by
this step: none — the fallback is silent. -/
def resolve_text (fs : String → Option String) (arg : String) : String × List OutputEvent :=
  match fs arg with
  | some contents => (contents, [])
  | none => (arg, [])

/-- The hard-coded default system prompt of `main`. -/
def defaultPrompt : String :=
  "You are an AI assistant that helps people find information."

/-- Lines 71–81 of `main`: resolve (system_prompt, input) from the
dispatched action; `none` for the non-send actions that never reach this
point. -/
def resolveSendTexts (fs : String → Option String) :
    CliAction → Option (String × String)
  | .send (some p) i => some ((resolve_text fs p).1, (resolve_text fs i).1)
  | .send none i => some (defaultPrompt, (resolve_text fs i).1)
  | _ => none

/-- One `content` block of the request payload (struct `Content`). -/
structure Content where
  content_type : String
  text : String
  deriving DecidableEq

/-- One chat message of the request payload (struct `Message`). -/
structure Message where
  role : String
  content : List Content
  deriving DecidableEq

/-- The wire payload (struct `ChatRequest`); the two `f32` sampling
parameters are modelled as rationals. -/
structure ChatRequest where
  messages : List Message
  temperature : ℚ
  top_p : ℚ
  max_tokens : Int
  deriving DecidableEq

/-- Lines 89–109 of `main`: the fixed two-message payload. -/
def mkChatRequest (system_prompt input : String) : ChatRequest :=
  { messages :=
      [ { role := "system",
          content := [{ content_type := "text", text := system_prompt }] },
        { role := "user",
          content := [{ content_type := "text", text := input }] } ],
    temperature := 7/10,
    top_p := 95/100,
    max_tokens := 16384 }

/-- One outbound HTTP request, as far as the program determines it. -/
structure HttpRequest where
  method : String
  url : String
  headers : List (String × String)
  body : ChatRequest
  deriving DecidableEq

/-- Line 115 of `main`: the request URL. -/
def requestUrl (endpoint deployment : String) : String :=
  endpoint ++ "/openai/deployments/" ++ deployment ++
    "/chat/completions?api-version=2024-02-15-preview"

/-- Lines 111–121 of `main`: the list of HTTP requests the send path
issues — exactly one POST with the `api-key` header and the JSON body. -/
def sendRequests (system_prompt input api_key endpoint deployment : String) :
    List HttpRequest :=
  [ { method := "POST",
      url := requestUrl endpoint deployment,
      headers := [("api-key", api_key)],
      body := mkChatRequest system_prompt input } ]

/-- The `match cred_type` table at the top of `get_credential`: keyring
identifier and interactive prompt message per credential type; `none`
models the `Err("Invalid credential type")` arm. -/
def get_credential_spec : String → Option (String × String)
  | "api_key" =>
    some ("azure_openai",
      "Please enter your API key (input will be hidden): ")
  | "endpoint" =>
    some ("azure_openai_endpoint",
      "Please enter your endpoint (e.g., https://your-resource.openai.azure.com): ")
  | "deployment" =>
    some ("azure_openai_deployment",
      "Please enter your deployment name: ")
  | _ => none

/-- The (namespace, identifier) pair `get_credential` opens for a given
credential type (`keyring::Entry::new("actionitems", keyring_id)`). -/
def get_credential_entry (cred_type : String) : Option (String × String) :=
  (get_credential_spec cred_type).map (fun p => ("actionitems", p.1))

/-- Result of a `get_credential` call: the value returned to `main`, the
store after the call, and the terminal traffic produced. -/
structure GetCredResult where
  value : String
  store : Store
  outputs : List OutputEvent

/-- Function `get_credential` from `src/main.rs`: look the credential up in the
keyring and return it trimmed; on a miss, announce the miss, prompt
(masked input exactly when the type is `api_key`), trim the entered
value, persist it, confirm, and return it.  `entered` is what the
interactive read yields. -/
def get_credential (cred_type : String) (store : Store) (entered : String) :
    Except String GetCredResult :=
  match get_credential_spec cred_type with
  | none => .error "Invalid credential type"
  | some (keyring_id, prompt_message) =>
    match storeGet store ("actionitems", keyring_id) with
    | some value => .ok ⟨rustTrim value, store, []⟩
    | none =>
      let value := rustTrim entered
      .ok ⟨value,
        storeSet store ("actionitems", keyring_id) value,
        [ .line (cred_type ++ " not found in secure storage."),
          .promptInput prompt_message (cred_type == "api_key"),
          .line (cred_type ++ " securely stored for future use.") ]⟩

/-- The `cred_types` table of `delete_credentials`: display name and
keyring identifier. -/
def delete_cred_types : List (String × String) :=
  [ ("API key", "azure_openai"),
    ("Endpoint", "azure_openai_endpoint"),
    ("Deployment", "azure_openai_deployment") ]

/-- The namespace `delete_credentials` opens each entry under. -/
def delete_namespace : String := "actionitems"

/-- The (namespace, identifier) pair the 401 branch of
`print_error_response` deletes. -/
def error_path_entry : String × String := ("actionitems", "azure_openai")

/-- Decidable substring test on the character lists, for the
`e.to_string().contains("No such key")` check. -/
def listInfix (needle : List Char) : List Char → Bool
  | [] => needle.isEmpty
  | c :: rest => List.isPrefixOf needle (c :: rest) || listInfix needle rest

/-- Rust `str::contains` with a string pattern. -/
def strContains (hay needle : String) : Bool :=
  listInfix needle.data hay.data

/-- The loop body outcomes of `delete_credentials` are driven by what each
`delete_password` call returns: success, or an error rendered as a
message string. -/
abbrev DeleteOutcome := Except String Unit

/-- The loop of `delete_credentials`, folded over the credential table with
the per-identifier `delete_password` outcome supplied by `g`: success
prints a deletion notice, an error whose message contains
`"No such key"` prints the informational notice, and any other error
propagates immediately. -/
def delete_credentials_go (g : String → DeleteOutcome) :
    List (String × String) → Except String (List String)
  | [] => .ok []
  | (cred_name, keyring_id) :: rest =>
    match g keyring_id with
    | .ok _ =>
      (delete_credentials_go g rest).map
        (fun msgs => (cred_name ++ " deleted from secure storage.") :: msgs)
    | .error e =>
      if strContains e "No such key" then
        (delete_credentials_go g rest).map
          (fun msgs => ("No " ++ cred_name ++ " was stored.") :: msgs)
      else .error e

/-- Function `delete_credentials` from `src/main.rs`. -/
def delete_credentials (g : String → DeleteOutcome) : Except String (List String) :=
  delete_credentials_go g delete_cred_types

/-- The message `delete_credentials` prints for one credential, given its
`delete_password` outcome (defined only when the error is the
non-fatal not-found case). -/
def deleteMsg (cred_name : String) (r : DeleteOutcome) : String :=
  match r with
  | .ok _ => cred_name ++ " deleted from secure storage."
  | .error _ => "No " ++ cred_name ++ " was stored."

/-- Whether a `delete_password` outcome makes `delete_credentials` abort:
any error whose message does not contain `"No such key"`. -/
def fatalOutcome : DeleteOutcome → Bool
  | .ok _ => false
  | .error e => !strContains e "No such key"

/-- The `--delete-keys` branch of `main` (lines 50–54): run
`delete_credentials`, and on success print the closing line and return
`Ok(())` (exit 0); a propagated error becomes a failing run. -/
def mainDeleteKeys (g : String → DeleteOutcome) (store : Store) : RunResult :=
  match delete_credentials g with
  | .ok msgs =>
    .exited 0
      ((msgs.map OutputEvent.line) ++
        [.line "All credentials deleted from secure storage."]) store
  | .error e => .errored e store

/-- Concrete response body with an empty `choices` array and a 401 error
object. -/
def c1_body : Value :=
  .obj [("choices", .arr []), ("error", .obj [("code", .str "401")])]

/-- Concrete store holding an API key under the entry the 401 branch
deletes. -/
def c1_store : Store := [(("actionitems", "azure_openai"), "SECRET")]

/-- Concrete 401 response body without a `choices` field. -/
def c1_wbody : Value := .obj [("error", .obj [("code", .str "401")])]

/-- Concrete successful response body carrying the reply `Paris`. -/
def c2_body : Value :=
  .obj [("choices", .arr [.obj [("message", .obj [("content", .str "Paris")])]])]

/-- Concrete non-401 error body that also carries an empty `choices`
array. -/
def c3_body : Value :=
  .obj [("error", .obj [("code", .str "500"), ("message", .str "boom")]),
        ("choices", .arr [])]

/-- Concrete non-401 error body without a `choices` field. -/
def c3_wbody : Value :=
  .obj [("error", .obj [("code", .str "500"), ("message", .str "boom")])]

/-- Concrete file system exposing a single readable path. -/
def c5_fs : String → Option String :=
  fun p => if p = "notes.txt" then some "file body" else none

/-- Concrete store holding an untrimmed deployment name. -/
def c7_store : Store := [(("actionitems", "azure_openai_deployment"), " depval ")]

/-- Concrete `delete_password` outcomes: every entry reports the keyring
not-found error. -/
def c9_outcomes : String → DeleteOutcome :=
  fun _ => .error "Platform secure storage error: No such key found"

/-- Concrete response body whose `choices` field is an empty array. -/
def c10_body : Value := .obj [("choices", .arr [])]

/-- Concrete response body with an empty `choices` array next to another
field. -/
def c10_wbody : Value := .obj [("choices", .arr []), ("model", .str "gpt-4")]

/-- Unfolding of the source-shaped trim into Mathlib's `rdropWhile`. -/
theorem rustTrimList_eq (l : List Char) :
    rustTrimList l =
      List.rdropWhile Char.isWhitespace (l.dropWhile Char.isWhitespace) := rfl

/-- A trimmed character list has no leading whitespace left to drop. -/
theorem dropWhile_rdropWhile_dropWhile (l : List Char) :
    (List.rdropWhile Char.isWhitespace (l.dropWhile Char.isWhitespace)).dropWhile
        Char.isWhitespace =
      List.rdropWhile Char.isWhitespace (l.dropWhile Char.isWhitespace) := by
  rcases hA : List.rdropWhile Char.isWhitespace (l.dropWhile Char.isWhitespace) with
    _ | ⟨a, r⟩
  · simp
  · obtain ⟨t, ht⟩ := List.rdropWhile_prefix Char.isWhitespace
      (l := l.dropWhile Char.isWhitespace)
    have hm : (l.dropWhile Char.isWhitespace).head? = some a := by
      rw [← ht, hA]; rfl
    have hh := List.head?_dropWhile_not Char.isWhitespace l
    rw [hm] at hh
    simp only at hh
    exact List.dropWhile_cons_of_neg (by simp [hh])

/-- Rust's trim is idempotent on character lists. -/
theorem rustTrimList_idem (l : List Char) :
    rustTrimList (rustTrimList l) = rustTrimList l := by
  rw [rustTrimList_eq, rustTrimList_eq, dropWhile_rdropWhile_dropWhile,
    List.rdropWhile_idempotent]

/-- Rust's trim is idempotent, so a trimmed value has no leading or
trailing whitespace. -/
theorem rustTrim_idem (s : String) : rustTrim (rustTrim s) = rustTrim s :=
  congrArg String.mk (rustTrimList_idem s.data)

/-- When the extraction fails without hitting the empty-`choices` panic,
the handler falls through to `print_error_response`. -/
theorem handleResponse_reach (v : Value) (input : String) (store : Store)
    (h1 : successContent v = none)
    (h2 : (v.indexStr "choices").asArray ≠ some []) :
    handleResponse v input store = some (print_error_response v input store) := by
  rcases hm : (v.indexStr "choices").asArray with _ | (_ | ⟨c0, rest⟩)
  · simp [handleResponse, hm]
  · exact absurd hm h2
  · simp only [successContent, hm] at h1
    simp [handleResponse, hm, h1]

/-- The 401 branch of `print_error_response` when an API key is stored. -/
theorem print_error_response_401 (v err : Value) (input : String) (store : Store)
    (k : String)
    (herr : v.get "error" = some err)
    (hcode : (err.get "code").bind Value.asStr = some "401")
    (hkey : storeGet store ("actionitems", "azure_openai") = some k) :
    print_error_response v input store =
      .exited 1
        [ .line "Authentication failed. API key has been cleared.",
          .line "Please run the tool again to enter a new API key." ]
        (storeDelete store ("actionitems", "azure_openai")) := by
  simp [print_error_response, herr, hcode, hkey]

/-- Without a 401 error object `print_error_response` produces the generic
diagnostic dump. -/
theorem print_error_response_generic (v : Value) (input : String) (store : Store)
    (h401 : errorCodeIs401 v = false) :
    print_error_response v input store = genericDump v input store := by
  rcases hv : v.get "error" with _ | err
  · simp [print_error_response, hv]
  · simp only [errorCodeIs401, hv] at h401
    rw [beq_eq_false_iff_ne] at h401
    simp [print_error_response, hv, h401]

/-- Mapping over a successful `Except` value. -/
theorem exceptMap_ok {α β ε : Type} (f : α → β) (a : α) :
    (Except.ok a : Except ε α).map f = .ok (f a) := rfl

/-- Mapping over a failed `Except` value. -/
theorem exceptMap_error {α β ε : Type} (f : α → β) (e : ε) :
    (Except.error e : Except ε α).map f = .error e := rfl

/-- When every `delete_password` outcome is success or not-found, the
delete loop succeeds and reports one message per credential. -/
theorem delete_go_ok (g : String → DeleteOutcome) :
    ∀ L : List (String × String), (∀ p ∈ L, fatalOutcome (g p.2) = false) →
      delete_credentials_go g L = .ok (L.map (fun p => deleteMsg p.1 (g p.2))) := by
  intro L
  induction L with
  | nil => intro _; rfl
  | cons hd tl ih =>
    intro h
    have hhd := h hd (by simp)
    have htl := fun p hp => h p (List.mem_cons_of_mem hd hp)
    rcases hg : g hd.2 with e | u
    · have hc : strContains e "No such key" = true := by
        simp only [fatalOutcome, hg, Bool.not_eq_true'] at hhd
        simpa using hhd
      simp [delete_credentials_go, hg, hc, ih htl, deleteMsg, exceptMap_ok]
    · simp [delete_credentials_go, hg, ih htl, deleteMsg, exceptMap_ok]

/-- Any fatal `delete_password` outcome in the table makes the delete loop
propagate an error. -/
theorem delete_go_error (g : String → DeleteOutcome) :
    ∀ L : List (String × String), (∃ p ∈ L, fatalOutcome (g p.2) = true) →
      ∃ e, delete_credentials_go g L = .error e := by
  intro L
  induction L with
  | nil => rintro ⟨p, hp, -⟩; exact absurd hp (List.not_mem_nil p)
  | cons hd tl ih =>
    rintro ⟨p, hp, hfat⟩
    rcases List.mem_cons.mp hp with rfl | hmem
    · simp only [fatalOutcome] at hfat
      rcases hg : g p.2 with e | u
      · rw [hg] at hfat
        have hc : strContains e "No such key" = false := by simpa using hfat
        exact ⟨e, by simp [delete_credentials_go, hg, hc]⟩
      · rw [hg] at hfat; simp at hfat
    · obtain ⟨e, he⟩ := ih ⟨p, hmem, hfat⟩
      rcases hg : g hd.2 with e' | u
      · by_cases hc : strContains e' "No such key" = true
        · exact ⟨e, by simp [delete_credentials_go, hg, hc, he, exceptMap_error]⟩
        · have hc2 : strContains e' "No such key" = false := by simpa using hc
          exact ⟨e', by simp [delete_credentials_go, hg, hc2]⟩
      · exact ⟨e, by simp [delete_credentials_go, hg, he, exceptMap_error]⟩

/-- Claim C1, counterexample: the body with `choices` equal to the empty
array and a 401 error object satisfies the claim's premise (success
extraction fails, error code is "401", an API key is stored), yet the
program panics on `choices[0]` (`none`) instead of deleting the key,
printing the notice and exiting 1. -/
theorem claim_c1_counterexample :
    successContent c1_body = none ∧
    errorCodeIs401 c1_body = true ∧
    storeGet c1_store ("actionitems", "azure_openai") = some "SECRET" ∧
    handleResponse c1_body "question" c1_store = none :=
  ⟨rfl, rfl, rfl, rfl⟩

/-- Claim C1, amended: for every parsed body in which the success extraction
fails without panicking (`choices` absent, not an array, or a nonempty
array whose first element's `message.content` is not a string — an empty
`choices` array panics instead) and that carries an `error` object whose
`code` equals the string "401", with an API key entry present in the
store (as the earlier provisioning step guarantees), the handler deletes
the stored API key, prints the fixed two-line remediation notice and
terminates with exit status 1. -/
theorem claim_c1 (v err : Value) (input : String) (store : Store) (k : String)
    (hfail : successContent v = none)
    (hreach : (v.indexStr "choices").asArray ≠ some [])
    (herr : v.get "error" = some err)
    (hcode : (err.get "code").bind Value.asStr = some "401")
    (hkey : storeGet store ("actionitems", "azure_openai") = some k) :
    handleResponse v input store =
      some (.exited 1
        [ .line "Authentication failed. API key has been cleared.",
          .line "Please run the tool again to enter a new API key." ]
        (storeDelete store ("actionitems", "azure_openai"))) := by
  rw [handleResponse_reach v input store hfail hreach,
    print_error_response_401 v err input store k herr hcode hkey]

/-- Claim C1, witness: on the 401 body without a `choices` field and a
store holding the key, the handler deletes the key, prints the two lines
and exits 1. -/
theorem claim_c1_witness :
    handleResponse c1_wbody "question" c1_store =
      some (.exited 1
        [ .line "Authentication failed. API key has been cleared.",
          .line "Please run the tool again to enter a new API key." ] []) := by
  have h := claim_c1 c1_wbody (.obj [("code", .str "401")]) "question" c1_store
    "SECRET" rfl (fun hc => Option.noConfusion hc) rfl rfl rfl
  exact h.trans (by rfl)

/-- Claim C2: for every parsed response body with a `choices` array whose
first element's `message.content` is a string, the program prints exactly
that string as one line on standard output and exits with status 0. -/
theorem claim_c2 (v : Value) (input : String) (store : Store) (s : String)
    (h : successContent v = some s) :
    handleResponse v input store = some (.exited 0 [.line s] store) := by
  rcases hm : (v.indexStr "choices").asArray with _ | (_ | ⟨c0, rest⟩)
  · simp [successContent, hm] at h
  · simp [successContent, hm] at h
  · simp only [successContent, hm] at h
    simp [handleResponse, hm, h]

/-- Claim C2, witness: the body `{"choices":[{"message":{"content":"Paris"}}]}`
yields exactly the output line `Paris` and exit status 0. -/
theorem claim_c2_witness :
    handleResponse c2_body "capital of France?" [] =
      some (.exited 0 [.line "Paris"] []) :=
  claim_c2 c2_body "capital of France?" [] "Paris" rfl

/-- Claim C3, counterexample: a body with a non-401 error object but an
empty `choices` array satisfies the claim's premise (extraction fails,
error code is not "401"), yet the program panics on `choices[0]`
(`none`) instead of printing the token estimate and the body and exiting
0. -/
theorem claim_c3_counterexample :
    successContent c3_body = none ∧
    errorCodeIs401 c3_body = false ∧
    handleResponse c3_body "whatever" [] = none :=
  ⟨rfl, rfl, rfl⟩

/-- Claim C3, amended: for every parsed body where the success extraction
fails without panicking (`choices` absent, not an array, or a nonempty
array whose first element's `message.content` is not a string — an empty
`choices` array panics instead) and the `error.code` field is not the
string "401" (including absent error objects), the program prints a
token estimate `floor(byteLen(input) / 4)` in a line
`Sent approximately N tokens`, then pretty-prints the full raw body to
standard output, and exits with status 0. -/
theorem claim_c3 (v : Value) (input : String) (store : Store)
    (hfail : successContent v = none)
    (hreach : (v.indexStr "choices").asArray ≠ some [])
    (h401 : errorCodeIs401 v = false) :
    handleResponse v input store =
      some (.exited 0
        [ .line ("Sent approximately " ++ toString (rustLen input / 4) ++ " tokens"),
          .line "\nRaw API Response:\n",
          .prettyJson v ]
        store) := by
  rw [handleResponse_reach v input store hfail hreach,
    print_error_response_generic v input store h401]
  rfl

/-- Claim C3, witness: the body `{"error":{"code":"500","message":"boom"}}`
with input `hello world!` (12 bytes) yields the token-estimate line for
3 tokens, the pretty-printed body, and exit status 0. -/
theorem claim_c3_witness :
    handleResponse c3_wbody "hello world!" [] =
      some (.exited 0
        [ .line "Sent approximately 3 tokens",
          .line "\nRaw API Response:\n",
          .prettyJson c3_wbody ] []) := by
  have h := claim_c3 c3_wbody "hello world!" [] rfl
    (fun hc => Option.noConfusion hc) rfl
  exact h.trans (by rfl)

/-- Claim C4, counterexample: the invocation with three non-program
arguments whose first is not `--prompt` does not take the usage-exit-1
path — it dispatches to the send flow with the first argument as input. -/
theorem claim_c4_counterexample :
    mainDispatch ["prog", "alpha", "beta", "gamma"] = .send none "alpha" ∧
    mainDispatch ["prog", "alpha", "beta", "gamma"] ≠ .usageError := by
  constructor
  · rfl
  · intro h; cases h

/-- Claim C4, amended: every invocation whose argument count (program name
included) is neither 2 nor 4 prints the usage message to the error
stream and exits 1 without attempting a network call; a 4-argument
invocation whose first argument is not `--prompt` instead proceeds as
the default-prompt form, using that argument as the input text and
silently ignoring the remaining two. -/
theorem claim_c4 (args : List String) :
    (args.length ≠ 2 → args.length ≠ 4 →
      mainDispatch args = .usageError ∧
        performsNetworkCall (mainDispatch args) = false) ∧
    (∀ p a b c, args = [p, a, b, c] → a ≠ "--prompt" →
      mainDispatch args = .send none a ∧ mainDispatch args ≠ .usageError) := by
  constructor
  · intro h2 h4
    rcases args with _ | ⟨x, _ | ⟨y, _ | ⟨z, _ | ⟨w, _ | rest⟩⟩⟩⟩
    · exact ⟨rfl, rfl⟩
    · exact ⟨rfl, rfl⟩
    · exact absurd rfl h2
    · exact ⟨rfl, rfl⟩
    · exact absurd rfl h4
    · exact ⟨rfl, rfl⟩
  · rintro p a b c rfl hne
    simp [mainDispatch, hne]

/-- Claim C4, witness: a 5-argument invocation takes the usage path and
performs no network call. -/
theorem claim_c4_witness :
    mainDispatch ["prog", "a", "b", "c", "d"] = .usageError ∧
    performsNetworkCall (mainDispatch ["prog", "a", "b", "c", "d"]) = false :=
  (claim_c4 ["prog", "a", "b", "c", "d"]).1 (by decide) (by decide)

/-- Claim C5: every input or prompt argument is first tried as a file path;
when the read succeeds the file contents become the text, and when it
fails for any reason the literal argument string is used verbatim — in
both cases silently, with no output emitted; the send path routes both
the prompt and the input argument through this resolution. -/
theorem claim_c5 (fs : String → Option String) (arg : String) :
    (∀ contents, fs arg = some contents → resolve_text fs arg = (contents, [])) ∧
    (fs arg = none → resolve_text fs arg = (arg, [])) ∧
    (∀ p i, resolveSendTexts fs (.send (some p) i) =
        some ((resolve_text fs p).1, (resolve_text fs i).1) ∧
      resolveSendTexts fs (.send none i) =
        some (defaultPrompt, (resolve_text fs i).1)) := by
  refine ⟨?_, ?_, fun p i => ⟨rfl, rfl⟩⟩
  · intro c hc; simp [resolve_text, hc]
  · intro hn; simp [resolve_text, hn]

/-- Claim C5, witness: a readable path resolves to the file contents and an
unreadable argument resolves to itself, both with no output. -/
theorem claim_c5_witness :
    resolve_text c5_fs "notes.txt" = ("file body", []) ∧
    resolve_text c5_fs "plain text" = ("plain text", []) :=
  ⟨(claim_c5 c5_fs "notes.txt").1 "file body" rfl,
   (claim_c5 c5_fs "plain text").2.1 rfl⟩

/-- Claim C6: for every system-prompt text and user-input text the send
path issues exactly one POST request, to the URL
`{endpoint}/openai/deployments/{deployment}/chat/completions?api-version=2024-02-15-preview`,
with the API key in the `api-key` header, whose body is exactly two
messages in order (`system` with the prompt, then `user` with the input,
each one text content block) and the fixed parameters
`temperature = 0.7`, `top_p = 0.95`, `max_tokens = 16384`; the texts are
passed through unvalidated and untruncated. -/
theorem claim_c6 (system_prompt input api_key endpoint deployment : String) :
    (sendRequests system_prompt input api_key endpoint deployment).length = 1 ∧
    sendRequests system_prompt input api_key endpoint deployment =
      [ { method := "POST",
          url := endpoint ++ "/openai/deployments/" ++ deployment ++
            "/chat/completions?api-version=2024-02-15-preview",
          headers := [("api-key", api_key)],
          body :=
            { messages :=
                [ { role := "system",
                    content := [{ content_type := "text", text := system_prompt }] },
                  { role := "user",
                    content := [{ content_type := "text", text := input }] } ],
              temperature := 7/10,
              top_p := 95/100,
              max_tokens := 16384 } } ] :=
  ⟨rfl, rfl⟩

/-- Claim C7: for each of the three credential types, `get_credential`
returns the stored value trimmed on a store hit; on a miss it prints the
not-found notice, prompts with the configured message (masking exactly
for `api_key`), writes the trimmed entered value back to the store,
prints the confirmation notice and returns that value — and in either
case the returned string is trimmed, so it carries no leading or
trailing whitespace. -/
theorem claim_c7 (cred_type : String) (store : Store)
    (entered keyring_id prompt_message : String)
    (hspec : get_credential_spec cred_type = some (keyring_id, prompt_message)) :
    (∀ v, storeGet store ("actionitems", keyring_id) = some v →
        get_credential cred_type store entered = .ok ⟨rustTrim v, store, []⟩ ∧
        rustTrim (rustTrim v) = rustTrim v) ∧
    (storeGet store ("actionitems", keyring_id) = none →
        get_credential cred_type store entered =
          .ok ⟨rustTrim entered,
               storeSet store ("actionitems", keyring_id) (rustTrim entered),
               [ .line (cred_type ++ " not found in secure storage."),
                 .promptInput prompt_message (cred_type == "api_key"),
                 .line (cred_type ++ " securely stored for future use.") ]⟩ ∧
        rustTrim (rustTrim entered) = rustTrim entered) := by
  constructor
  · intro v hv
    refine ⟨?_, rustTrim_idem v⟩
    simp [get_credential, hspec, hv]
  · intro hn
    refine ⟨?_, rustTrim_idem entered⟩
    simp [get_credential, hspec, hn]

/-- Claim C7, witness: a stored untrimmed deployment value is returned
trimmed with no prompting, and a missing API key is prompted for with
masked input, stored trimmed, and returned trimmed. -/
theorem claim_c7_witness :
    get_credential "deployment" c7_store "x" = .ok ⟨"depval", c7_store, []⟩ ∧
    get_credential "api_key" [] "  k1 " =
      .ok ⟨"k1", [(("actionitems", "azure_openai"), "k1")],
        [ .line "api_key not found in secure storage.",
          .promptInput "Please enter your API key (input will be hidden): " true,
          .line "api_key securely stored for future use." ]⟩ := by
  constructor
  · have h := (claim_c7 "deployment" c7_store "x" "azure_openai_deployment"
      "Please enter your deployment name: " rfl).1 " depval " rfl
    exact h.1.trans (by rfl)
  · have h := (claim_c7 "api_key" ([] : Store) "  k1 " "azure_openai"
      "Please enter your API key (input will be hidden): " rfl).2 rfl
    exact h.1.trans (by rfl)

/-- Claim C8: the credential-store namespace and the three credential
identifiers are the same fixed constants at all three call sites — the
provisioning table of `get_credential`, the table of
`delete_credentials`, and the 401 failure-invalidation entry of
`print_error_response` — so delete and clear operations target exactly
the entries that get/set produced. -/
theorem claim_c8 :
    ["api_key", "endpoint", "deployment"].map get_credential_entry =
      delete_cred_types.map (fun p => some (delete_namespace, p.2)) ∧
    get_credential_entry "api_key" = some error_path_entry := by
  decide

/-- Claim C9: for any outcomes of the three `delete_password` calls, when
none is a fatal error (success or not-found everywhere) the
`--delete-keys` command reports one message per credential — the
informational `No <X> was stored.` for every not-found — and exits 0
after the closing line; and when any call fails with an error other than
not-found the command propagates that error and terminates with a
failing status. -/
theorem claim_c9 (g : String → DeleteOutcome) :
    ((∀ p ∈ delete_cred_types, fatalOutcome (g p.2) = false) →
        delete_credentials g =
          .ok (delete_cred_types.map (fun p => deleteMsg p.1 (g p.2))) ∧
        ∀ store : Store, mainDeleteKeys g store =
          .exited 0
            (((delete_cred_types.map (fun p => deleteMsg p.1 (g p.2))).map
                OutputEvent.line) ++
              [.line "All credentials deleted from secure storage."]) store) ∧
    ((∃ p ∈ delete_cred_types, fatalOutcome (g p.2) = true) →
        ∃ e, delete_credentials g = .error e ∧
          ∀ store : Store, mainDeleteKeys g store = .errored e store) := by
  constructor
  · intro h
    have hok := delete_go_ok g delete_cred_types h
    constructor
    · simpa [delete_credentials] using hok
    · intro store
      simp [mainDeleteKeys, delete_credentials, hok]
  · intro h
    obtain ⟨e, he⟩ := delete_go_error g delete_cred_types h
    refine ⟨e, by simpa [delete_credentials] using he, fun store => ?_⟩
    simp [mainDeleteKeys, delete_credentials, he]

/-- Claim C9, witness: with nothing stored, all three deletions report the
not-found notice and the command still exits 0. -/
theorem claim_c9_witness :
    delete_credentials c9_outcomes =
      .ok ["No API key was stored.", "No Endpoint was stored.",
           "No Deployment was stored."] ∧
    mainDeleteKeys c9_outcomes [] =
      .exited 0
        [ .line "No API key was stored.",
          .line "No Endpoint was stored.",
          .line "No Deployment was stored.",
          .line "All credentials deleted from secure storage." ] [] := by
  have h := (claim_c9 c9_outcomes).1 (by decide)
  constructor
  · exact h.1.trans (by rfl)
  · exact (h.2 []).trans (by rfl)

/-- Claim C10, counterexample: for the body whose `choices` field is an
empty array, the success extraction indexes the empty `Vec` and panics
(`none`): the run neither survives nor reaches the generic-diagnostic
path. -/
theorem claim_c10_counterexample :
    (c10_body.indexStr "choices").asArray = some [] ∧
    successContent c10_body = none ∧
    handleResponse c10_body "abc" [] = none :=
  ⟨rfl, rfl, rfl⟩

/-- Claim C10, amended: for every parsed response body whose `choices`
field is present but an empty array, the extraction branch panics on the
out-of-bounds `Vec` index `choices[0]` — the `value[0]`-returns-`Null`
behaviour belongs to `serde_json::Value` indexing and does not apply to
the `&Vec<Value>` obtained from `as_array` — so the run aborts and never
reaches the generic-diagnostic path. -/
theorem claim_c10 (v : Value) (input : String) (store : Store)
    (h : (v.indexStr "choices").asArray = some []) :
    handleResponse v input store = none := by
  simp [handleResponse, h]

/-- Claim C10, witness: a concrete body with an empty `choices` array next
to another field panics in the extraction branch. -/
theorem claim_c10_witness : handleResponse c10_wbody "some input" [] = none :=
  claim_c10 c10_wbody "some input" [] rfl

end AiTool
